import Mathlib

/-!
# Verification of the TempMail module (src/modules/temp_mail.py)

Shallow embedding of the temporary-mailbox lifecycle manager: the mail
provider client with its auth-retry discipline, the dedup tracker, the
polling loop with error backoff and self-restart, and the mailbox
lifecycle controller.  Network calls, the random source and the
messaging sink are modelled as explicit oracle parameters; Python
exceptions are modelled with `Except`.
-/

namespace TempMail

/-- Value of a JSON field as the Python code sees it: a string, some
non-string value, or absent (`dict.get` returning `None`).  Used for the
`"id"` field of message summaries and the `"domain"` field of domain
entries. -/
inductive JField
  | str (s : String)
  | nonStr
  | absent
deriving DecidableEq, Repr

/-- A message summary as built by `_fetch_messages` (lines 316-323):
`{"id": ..., "from": ..., "subject": ..., "date": ...}`.  The `id` field
is copied verbatim from the provider item, so it can be any JSON value. -/
structure Summary where
  id : JField
  sender : String
  subject : String
  date : String
deriving DecidableEq, Repr

/-- A full message record as consumed by `_format_chat_email` and
`_read_message`: the four body fields tried in order, plus the header
fields. -/
structure Detail where
  sender : String
  subject : String
  date : String
  text : Option String
  html : Option String
  textBody : Option String
  htmlBody : Option String
deriving DecidableEq, Repr

/-- The `MailAccount` dataclass (lines 27-34). -/
structure MailAccount where
  address : String
  password : String
  token : Option String := none
deriving DecidableEq, Repr

/-! ## Python string helpers

`str.strip` / `str.rstrip` modelled on `List Char`, using the whitespace
predicate. -/

def lstrip (l : List Char) : List Char := l.dropWhile Char.isWhitespace

def rstrip (l : List Char) : List Char :=
  (l.reverse.dropWhile Char.isWhitespace).reverse

/-- Python `s.strip()`. -/
def pyStrip (l : List Char) : List Char := rstrip (lstrip l)

/-! ## Dedup tracker

`_initialize_known_messages` (lines 399-412) primes the known-id set;
the head of the `_poll_once` loop (lines 451-456) filters out ids that
are invalid, empty, or already known.  The known set is modelled as a
`List String` with membership. -/

/-- The id-set comprehension of `_initialize_known_messages` (lines
406-412): keep `item.get("id")` when it is a non-empty string. -/
def primeKnown (msgs : List Summary) : List String :=
  msgs.filterMap fun m =>
    match m.id with
    | .str s => if s = "" then none else some s
    | _ => none

/-- The dedup filter at the head of the `_poll_once` loop (lines
451-456): a summary passes when its id is a non-empty string not in the
known set. -/
def filterNew (known : List String) (msgs : List Summary) : List Summary :=
  msgs.filter fun m =>
    match m.id with
    | .str s => !(s = "") && !(decide (s ∈ known))
    | _ => false

/-! ## Body truncation (`_format_chat_email`, lines 561-591) -/

/-- Python truthiness chain `data.get("text") or data.get("html") or
data.get("textBody") or data.get("htmlBody") or ""` (lines 567-573). -/
def pyOrStr (a : Option String) (b : String) : String :=
  match a with
  | some s => if s = "" then b else s
  | none => b

def detailBody (d : Detail) : String :=
  pyOrStr d.text (pyOrStr d.html (pyOrStr d.textBody (pyOrStr d.htmlBody "")))

/-- The horizontal-ellipsis character appended on truncation (line 580). -/
def ellipsisChar : Char := Char.ofNat 0x2026

/-- The body transformation of `_format_chat_email` (lines 577-580):
strip, and when the stripped body exceeds 2000 characters keep its first
2000 characters, right-strip them, and append the ellipsis marker. -/
def truncateBody (body : List Char) : List Char :=
  if 2000 < (pyStrip body).length then
    rstrip ((pyStrip body).take 2000) ++ [ellipsisChar]
  else pyStrip body

/-! ## `_read_message` (lines 221-244) -/

/-- Outcome of the read-one-message command, by which reply it sends. -/
inductive ReadResult
  | noMailbox
  | invalidId
  | fetchFailed (e : String)
  | message (d : Detail)
deriving DecidableEq, Repr

/-- `_read_message`: reply `no_mailbox` when no mailbox is active; strip
the id and reply `invalid_id` when it is empty; otherwise fetch the full
record, reporting a fetch error, else rendering the message. -/
def readMessage (mailbox : Option MailAccount) (messageId : List Char)
    (fetch : List Char → Except String Detail) : ReadResult :=
  match mailbox with
  | none => .noMailbox
  | some _ =>
    let trimmed := pyStrip messageId
    if trimmed = [] then .invalidId
    else
      match fetch trimmed with
      | .error e => .fetchFailed e
      | .ok d => .message d

/-! ## Auth-retry discipline (`_fetch_messages` lines 293-302,
`_fetch_message` lines 327-340)

Both methods share the same shape: obtain headers via `_auth_headers`
(cached token, or `_obtain_token` which caches its result); issue the
request; on a 401 response clear the cached token (`_reset_token`),
obtain fresh headers and issue the request once more, letting any
failure of that second request propagate.  The provider is an oracle
giving the outcome of the n-th token acquisition and of the n-th
request attempt. -/

/-- An error raised by `_request_json`: an HTTP status error
(`aiohttp.ClientResponseError`) or any other failure. -/
inductive HttpError
  | status (code : Nat)
  | other (msg : String)
deriving DecidableEq, Repr

/-- Observable trace of one call made under the auth-retry rule:
the bearer tokens of the requests actually issued (in order), the
session's cached token afterwards, and the overall outcome. -/
structure RetryTrace (α : Type) where
  requests : List String
  cachedToken : Option String
  result : Except HttpError α
deriving Repr

/-- The body shared by both call sites once a bearer token `t` is in
hand: issue the request; catch only a 401 status, in which case the
cached token is cleared, a fresh one obtained (the `obtIdx`-th
acquisition of this call) and the request reissued, its outcome —
success or any error, a second 401 included — returned as is. -/
def retryCore {α : Type} (t : String) (obtain : Nat → Except HttpError String)
    (request : Nat → String → Except HttpError α) (obtIdx : Nat) : RetryTrace α :=
  match request 0 t with
  | .ok d => ⟨[t], some t, .ok d⟩
  | .error (.status 401) =>
    match obtain obtIdx with
    | .error e => ⟨[t], none, .error e⟩
    | .ok t2 =>
      match request 1 t2 with
      | .ok d => ⟨[t, t2], some t2, .ok d⟩
      | .error e => ⟨[t, t2], some t2, .error e⟩
  | .error e => ⟨[t], some t, .error e⟩

/-- A provider call under the auth-retry rule, starting from the
session's cached token (`_auth_headers` obtains one when absent,
caching it). -/
def requestWithAuthRetry {α : Type} (cached : Option String)
    (obtain : Nat → Except HttpError String)
    (request : Nat → String → Except HttpError α) : RetryTrace α :=
  match cached with
  | some t => retryCore t obtain request 0
  | none =>
    match obtain 0 with
    | .error e => ⟨[], none, .error e⟩
    | .ok t => retryCore t obtain request 1

/-! ## Mailbox generation (`_generate_mailbox`, lines 270-291) -/

/-- Provider response to `POST /accounts`: success, HTTP 422
(address already taken), or any other failure. -/
inductive CreateOutcome
  | ok
  | conflict
  | failed (msg : String)
deriving DecidableEq, Repr

/-- How `_generate_mailbox` can fail: the final
`RuntimeError("failed to create mailbox")` after five conflicts, a
non-422 account-creation failure, or a token-acquisition failure. -/
inductive GenError
  | exhausted
  | provider (msg : String)
  | tokenFailed (e : HttpError)
deriving DecidableEq, Repr

def mkAddress (login domain : String) : String := login ++ "@" ++ domain

/-- The `for _ in range(5)` loop of `_generate_mailbox`: `k` attempts
remain and `i` attempts were already made.  Each attempt draws a fresh
login (`rnd (2*i)`) and a fresh password (`rnd (2*i+1)`) from the
random stream, mirroring the two `_random_string` calls inside the loop
body.  Returns the outcome together with the list of addresses
attempted. -/
def genAttempts (domain : String) (rnd : Nat → String)
    (create : String → String → CreateOutcome)
    (obtainTok : String → String → Except HttpError String) :
    Nat → Nat → Except GenError MailAccount × List String
  | 0, _ => (.error .exhausted, [])
  | k + 1, i =>
    let login := rnd (2 * i)
    let password := rnd (2 * i + 1)
    let address := mkAddress login domain
    match create address password with
    | .conflict =>
      let r := genAttempts domain rnd create obtainTok k (i + 1)
      (r.1, address :: r.2)
    | .failed e => (.error (.provider e), [address])
    | .ok =>
      match obtainTok address password with
      | .error e => (.error (.tokenFailed e), [address])
      | .ok tok => (.ok ⟨address, password, some tok⟩, [address])

/-- `_generate_mailbox` after the domain has been chosen: up to five
account-creation attempts. -/
def generateMailbox (domain : String) (rnd : Nat → String)
    (create : String → String → CreateOutcome)
    (obtainTok : String → String → Except HttpError String) :
    Except GenError MailAccount × List String :=
  genAttempts domain rnd create obtainTok 5 0

/-! ## Domain discovery (`_choose_domain`, lines 489-507) -/

/-- One entry of the provider's `hydra:member` domain list: a JSON
object with some value under `"domain"`, or a non-object entry. -/
inductive DomainItem
  | dict (domainField : JField)
  | nonDict
deriving DecidableEq, Repr

/-- Lines 498-505: `value = domain.get("domain")` when the chosen entry
is a dict, `None` otherwise; the entry is usable only when that value is
a non-empty string. -/
def extractDomain : DomainItem → Option String
  | .dict (.str s) => if s = "" then none else some s
  | .dict _ => none
  | .nonDict => none

/-- `_choose_domain` once the envelope checks passed (`items` is the
non-empty member list): `secrets.choice` picks exactly one entry, here
the one at index `pick`; a chosen entry without a usable domain string
raises `RuntimeError("invalid domain received")`. -/
def chooseDomain (items : List DomainItem) (pick : Fin items.length) :
    Except String String :=
  match extractDomain (items.get pick) with
  | some v => .ok v
  | none => .error "invalid domain received"

/-! ## One poll pass (`_poll_once`, lines 449-470)

The message list has already been fetched; for each summary in provider
order the loop skips invalid/empty/known ids, fetches the full record
(a failure here skips just that message), attempts sink delivery
(`send_message`, any failure swallowed), and then adds the id to the
known set regardless of the delivery outcome. -/

/-- State accumulated over one `_poll_once` pass: the known-id set and
the log of sink-delivery attempts `(message id, delivery succeeded?)`. -/
structure PollResult where
  known : List String
  attempts : List (String × Bool)
deriving DecidableEq, Repr

/-- The body of the `for item in messages` loop (lines 451-470). -/
def pollOnceStep (fetchMsg : String → Except String Detail)
    (send : String → Bool) (acc : PollResult) (m : Summary) : PollResult :=
  match m.id with
  | .str s =>
    if s = "" then acc
    else if s ∈ acc.known then acc
    else
      match fetchMsg s with
      | .error _ => acc
      | .ok _ => { known := acc.known ++ [s], attempts := acc.attempts ++ [(s, send s)] }
  | _ => acc

/-- `_poll_once` after a successful `_fetch_messages`, starting from the
module's known-id set. -/
def pollOnce (fetchMsg : String → Except String Detail) (send : String → Bool)
    (known : List String) (msgs : List Summary) : PollResult :=
  msgs.foldl (pollOnceStep fetchMsg send) ⟨known, []⟩

/-! ## One loop turn (`_poll_loop`, lines 432-447)

The loop body runs `_poll_once` then sleeps `_poll_interval`.  Any
exception other than cancellation is caught once, outside the `while`:
the loop sleeps `_poll_error_delay` and, when the mailbox and the chat
peer are still present, creates exactly one fresh task running
`_poll_loop` again. -/

def pollInterval : Nat := 30

def pollErrorDelay : Nat := 10

/-- Observable outcome of one turn of `_poll_loop`. -/
structure TurnOutcome where
  known : List String
  attempts : List (String × Bool)
  sleep : Nat
  restartsScheduled : Nat
deriving DecidableEq, Repr

/-- One turn of `_poll_loop` with an active mailbox and chat peer:
`fetchList` is the outcome of `_fetch_messages` for this iteration
(its error being whatever escaped the single auth-retry).  On success
the batch is processed and the loop sleeps `_poll_interval`; on error
nothing of the batch is processed, the loop sleeps `_poll_error_delay`
and schedules one restart when mailbox and peer are present. -/
def pollLoopTurn (fetchList : Except HttpError (List Summary))
    (fetchMsg : String → Except String Detail) (send : String → Bool)
    (hasMailbox hasPeer : Bool) (known : List String) : TurnOutcome :=
  match fetchList with
  | .error _ =>
    { known := known, attempts := [], sleep := pollErrorDelay,
      restartsScheduled := if hasMailbox && hasPeer then 1 else 0 }
  | .ok msgs =>
    let r := pollOnce fetchMsg send known msgs
    { known := r.known, attempts := r.attempts, sleep := pollInterval,
      restartsScheduled := 0 }

/-! ## Lifecycle transition system

The module state relevant to the one-live-loop invariant, together with
a small-step relation over the events of the source: `_create_mailbox`
(lines 154-180), iterations of `_poll_loop`, its error-backoff restart
(lines 440-444) and its exits (lines 435, 445-447).  `asyncio` is
cooperative, so each step is the code executed between two `await`
points; the restart at line 444 and the `finally` at 445-447 run with
no `await` in between, hence form one atomic step in which the old task
dies and its replacement is registered. -/

/-- An alive `_poll_loop` task: its id, the mailbox generation it was
started under, and whether it is in the error-backoff sleep of line 441
(after which it either restarts or is cancelled). -/
structure TaskEntry where
  tid : Nat
  gen : Nat
  backoff : Bool
deriving DecidableEq, Repr

/-- The module fields touched by the lifecycle: `gen` counts mailbox
installs (the current mailbox generation), `pollTask` is
`self._poll_task`, `alive` the set of poll tasks not yet terminated,
`nextId` a fresh task-id supply, `known` the dedup set. -/
structure MState where
  gen : Nat
  hasMailbox : Bool
  hasPeer : Bool
  pollTask : Option Nat
  alive : List TaskEntry
  nextId : Nat
  known : List String
deriving DecidableEq, Repr

/-- Fresh module state (`__init__`, lines 110-118). -/
def init : MState :=
  { gen := 0, hasMailbox := false, hasPeer := false, pollTask := none,
    alive := [], nextId := 0, known := [] }

/-- `_stop_polling` (lines 421-430): cancel the registered task, await
its termination (it leaves the alive set), clear the handle. -/
def stopPolling (s : MState) : MState :=
  match s.pollTask with
  | none => s
  | some t =>
    { s with alive := s.alive.filter (fun a => a.tid ≠ t), pollTask := none }

/-- `_start_polling` (lines 414-419): a no-op when a task is already
registered or mailbox/peer are missing; otherwise register a fresh task
for the current mailbox generation. -/
def startPolling (s : MState) : MState :=
  if s.pollTask.isSome || !s.hasMailbox || !s.hasPeer then s
  else
    { s with pollTask := some s.nextId,
             alive := ⟨s.nextId, s.gen, false⟩ :: s.alive,
             nextId := s.nextId + 1 }

/-- `_create_mailbox` (lines 154-180): `_generate_mailbox` runs first
and on failure the handler returns before any teardown; on success the
old loop is stopped and awaited, the new mailbox installed, chat state
cleared and the dedup set emptied.  When chat creation succeeds
(`chatOk`), `_create_mail_chat` sets the peer, primes the dedup set
from the current inbox (`primed`) and starts polling. -/
def createMailbox (s : MState) (genResult : Except GenError MailAccount)
    (chatOk : Bool) (primed : List String) : MState :=
  match genResult with
  | .error _ => s
  | .ok _ =>
    if chatOk then
      startPolling { stopPolling s with
        hasMailbox := true, hasPeer := true,
        gen := (stopPolling s).gen + 1, known := primed }
    else
      { stopPolling s with
        hasMailbox := true, hasPeer := false,
        gen := (stopPolling s).gen + 1, known := [] }

/-- Mark the task with id `t` as being in error backoff. -/
def markBackoff (t : Nat) (l : List TaskEntry) : List TaskEntry :=
  l.map fun x => if x.tid = t then { x with backoff := true } else x

/-- Small-step relation over lifecycle events. -/
inductive Step : MState → MState → Prop
  /-- A `tempmail new` command: `_create_mailbox` with the given
  generation outcome, chat-creation outcome and primed ids. -/
  | create (s : MState) (genResult : Except GenError MailAccount)
      (chatOk : Bool) (primed : List String) :
      Step s (createMailbox s genResult chatOk primed)
  /-- An alive task completes one loop iteration (lines 435-437),
  appending the ids it marked seen to the dedup set. -/
  | iterOk (s : MState) (a : TaskEntry) (writes : List String)
      (ha : a ∈ s.alive) (hb : a.backoff = false)
      (hm : s.hasMailbox = true) (hp : s.hasPeer = true) :
      Step s { s with known := s.known ++ writes }
  /-- An iteration raises: the task enters the error-backoff sleep of
  line 441. -/
  | iterErr (s : MState) (a : TaskEntry)
      (ha : a ∈ s.alive) (hb : a.backoff = false)
      (hm : s.hasMailbox = true) (hp : s.hasPeer = true) :
      Step s { s with alive := markBackoff a.tid s.alive }
  /-- The backoff sleep ends with mailbox and peer still present
  (lines 442-447): a fresh task is created and registered, and the old
  task terminates, all without an intervening await. -/
  | errRestart (s : MState) (a : TaskEntry)
      (ha : a ∈ s.alive) (hb : a.backoff = true)
      (hm : s.hasMailbox = true) (hp : s.hasPeer = true) :
      Step s { s with
        alive := ⟨s.nextId, s.gen, false⟩ :: s.alive.filter (fun x => x.tid ≠ a.tid),
        pollTask := some s.nextId, nextId := s.nextId + 1 }
  /-- The backoff sleep ends with mailbox or peer gone: no restart; the
  `finally` clears the handle if it still points at this task. -/
  | errDie (s : MState) (a : TaskEntry)
      (ha : a ∈ s.alive) (hb : a.backoff = true)
      (hnp : s.hasMailbox = false ∨ s.hasPeer = false) :
      Step s { s with
        alive := s.alive.filter (fun x => x.tid ≠ a.tid),
        pollTask := if s.pollTask = some a.tid then none else s.pollTask }
  /-- The `while` condition fails (line 435): the task exits normally;
  the `finally` clears the handle if it still points at this task. -/
  | exitLoop (s : MState) (a : TaskEntry)
      (ha : a ∈ s.alive) (hb : a.backoff = false)
      (hnp : s.hasMailbox = false ∨ s.hasPeer = false) :
      Step s { s with
        alive := s.alive.filter (fun x => x.tid ≠ a.tid),
        pollTask := if s.pollTask = some a.tid then none else s.pollTask }

/-- States reachable from a fresh module. -/
def Reachable (s : MState) : Prop := Relation.ReflTransGen Step init s

/-- The handle discipline the source maintains: either no poll task is
alive and none is registered, or exactly one is alive, it is the
registered one, and it belongs to the current mailbox generation. -/
def HandleInv (s : MState) : Prop :=
  (s.alive = [] ∧ s.pollTask = none) ∨
  (∃ t b, s.alive = [⟨t, s.gen, b⟩] ∧ s.pollTask = some t)

/-! ## Concrete sample data used by witnesses -/

def sampleDetail : Detail :=
  { sender := "alice@example.org", subject := "hello", date := "2024-01-01",
    text := some "body", html := none, textBody := none, htmlBody := none }

def sampleAccount : MailAccount :=
  { address := "user@mail.tm", password := "pw", token := some "tok" }

/-- A 2001-character body: 1999 letters, a space, a letter.  Its first
2000 characters end in the space, which the `rstrip` of line 580
removes. -/
def cexBody : List Char := List.replicate 1999 'a' ++ [' ', 'b']

/-- A 2000-character body ending in a space, which `strip` removes. -/
def cexBody2 : List Char := List.replicate 1999 'a' ++ [' ']

/-! ## Helper lemmas on Python string operations -/

theorem length_dropWhile_le (p : Char → Bool) (l : List Char) :
    (l.dropWhile p).length ≤ l.length := by
  induction l with
  | nil => simp
  | cons a l ih =>
    by_cases h : p a
    · simp only [List.dropWhile_cons, h, if_true, List.length_cons]
      omega
    · simp [List.dropWhile_cons, h]

theorem rstrip_length_le (l : List Char) : (rstrip l).length ≤ l.length := by
  have := length_dropWhile_le Char.isWhitespace l.reverse
  simpa [rstrip] using this

theorem dropWhile_replicate_of_neg (p : Char → Bool) (c : Char) (n : Nat)
    (h : p c = false) :
    List.dropWhile p (List.replicate n c) = List.replicate n c := by
  cases n with
  | zero => simp
  | succ m => simp [List.replicate_succ, List.dropWhile_cons, h]

theorem lstrip_replicate_append (c : Char) (n : Nat) (l : List Char)
    (h : c.isWhitespace = false) :
    lstrip (List.replicate (n + 1) c ++ l) = List.replicate (n + 1) c ++ l := by
  simp [lstrip, List.replicate_succ, List.dropWhile_cons, h]

theorem rstrip_append_nonws (l : List Char) (c : Char)
    (h : c.isWhitespace = false) :
    rstrip (l ++ [c]) = l ++ [c] := by
  simp [rstrip, List.dropWhile_cons, h]

theorem pyStrip_cexBody : pyStrip cexBody = cexBody := by
  have h1 : lstrip cexBody = cexBody := by
    have he : cexBody = List.replicate (1998 + 1) 'a' ++ [' ', 'b'] := by
      norm_num [cexBody]
    rw [he, lstrip_replicate_append _ _ _ (by decide)]
  have h2 : rstrip cexBody = cexBody := by
    have he : cexBody = (List.replicate 1999 'a' ++ [' ']) ++ ['b'] := by
      unfold cexBody
      rw [List.append_assoc]
      rfl
    rw [he, rstrip_append_nonws _ _ (by decide)]
  rw [pyStrip, h1, h2]

theorem cexBody_length : cexBody.length = 2001 := by
  unfold cexBody
  rw [List.length_append, List.length_replicate]
  decide

theorem rstrip_cexBody2 :
    rstrip (List.replicate 1999 'a' ++ [' ']) = List.replicate 1999 'a' := by
  rw [rstrip, List.reverse_append]
  rw [show ([' '] : List Char).reverse = [' '] from rfl]
  rw [List.reverse_replicate, List.singleton_append, List.dropWhile_cons]
  rw [if_pos (by decide)]
  rw [dropWhile_replicate_of_neg _ _ _ (by decide), List.reverse_replicate]

theorem take_2000_cexBody :
    cexBody.take 2000 = List.replicate 1999 'a' ++ [' '] := by
  unfold cexBody
  rw [List.take_append_eq_append_take, List.take_replicate,
    List.length_replicate]
  norm_num

theorem truncate_cexBody :
    truncateBody cexBody = List.replicate 1999 'a' ++ [ellipsisChar] := by
  unfold truncateBody
  rw [pyStrip_cexBody, cexBody_length]
  rw [if_pos (by norm_num)]
  rw [take_2000_cexBody, rstrip_cexBody2]

theorem pyStrip_cexBody2 : pyStrip cexBody2 = List.replicate 1999 'a' := by
  have hl : lstrip cexBody2 = cexBody2 := by
    have he : cexBody2 = List.replicate (1998 + 1) 'a' ++ [' '] := by
      norm_num [cexBody2]
    rw [he, lstrip_replicate_append _ _ _ (by decide)]
  rw [pyStrip, hl]
  exact rstrip_cexBody2

theorem truncate_cexBody2 :
    truncateBody cexBody2 = List.replicate 1999 'a' := by
  unfold truncateBody
  rw [pyStrip_cexBody2, List.length_replicate]
  rw [if_neg (by norm_num)]

theorem pyStrip_replicate_a :
    pyStrip (List.replicate 2000 'a') = List.replicate 2000 'a' := by
  have h1 : lstrip (List.replicate 2000 'a') = List.replicate 2000 'a' := by
    rw [lstrip, dropWhile_replicate_of_neg _ _ _ (by decide)]
  have h2 : rstrip (List.replicate 2000 'a') = List.replicate 2000 'a' := by
    rw [rstrip, List.reverse_replicate,
      dropWhile_replicate_of_neg _ _ _ (by decide), List.reverse_replicate]
  rw [pyStrip, h1, h2]

/-! ## Claim theorems -/

/-- C6: priming the dedup tracker with a batch `S` and then immediately
filtering the same batch for new messages yields the empty sequence;
ids that are empty or not strings are ignored both when priming and
when filtering (they never pass the filter in the first place). -/
theorem C6_prime_then_filter_empty (S : List Summary) :
    filterNew (primeKnown S) S = [] := by
  rw [filterNew, List.filter_eq_nil_iff]
  intro m hm
  cases hid : m.id with
  | str s =>
    by_cases hs : s = ""
    · simp [hid, hs]
    · have : s ∈ primeKnown S :=
        List.mem_filterMap.2 ⟨m, hm, by simp [hid, hs]⟩
      simp [hid, hs, this]
  | nonStr => simp [hid]
  | absent => simp [hid]

/-- C2: when `_fetch_messages` raises during a polling iteration (any
unexpected error left after the single auth-retry) and the mailbox and
chat peer are present, the whole iteration aborts: the dedup set is
unchanged and no sink delivery is attempted, the loop sleeps the
error-backoff delay of 10 time units, and exactly one fresh loop
restart is scheduled. -/
theorem C2_error_aborts_iteration (e : HttpError)
    (fetchMsg : String → Except String Detail) (send : String → Bool)
    (known : List String) :
    pollLoopTurn (.error e) fetchMsg send true true known =
      { known := known, attempts := [], sleep := 10, restartsScheduled := 1 } ∧
    pollErrorDelay = 10 := ⟨rfl, rfl⟩

/-- C8: `_read_message` replies `no_mailbox` when no mailbox is active;
with an active mailbox it replies `invalid_id` when the id is empty
after trimming; otherwise it returns the provider's full record for the
trimmed id. -/
theorem C8_read_message (acct : MailAccount) (messageId : List Char)
    (fetch fetchAny : List Char → Except String Detail) (d : Detail) :
    readMessage none messageId fetchAny = .noMailbox ∧
    (pyStrip messageId = [] →
      readMessage (some acct) messageId fetch = .invalidId) ∧
    (pyStrip messageId ≠ [] → fetch (pyStrip messageId) = .ok d →
      readMessage (some acct) messageId fetch = .message d) := by
  refine ⟨rfl, ?_, ?_⟩
  · intro h
    simp [readMessage, h]
  · intro h hf
    simp [readMessage, h, hf]

/-- Witness for C8 at concrete inputs: a whitespace-only id is rejected
and a valid id returns the fetched record. -/
theorem C8_read_message_witness :
    readMessage (some sampleAccount) [' ', ' '] (fun _ => .ok sampleDetail)
        = .invalidId ∧
    readMessage (some sampleAccount) [' ', 'm', '1']
        (fun _ => .ok sampleDetail) = .message sampleDetail ∧
    readMessage none [' ', 'm', '1'] (fun _ => .ok sampleDetail)
        = .noMailbox :=
  ⟨(C8_read_message sampleAccount [' ', ' '] (fun _ => .ok sampleDetail)
      (fun _ => .ok sampleDetail) sampleDetail).2.1 (by decide),
   (C8_read_message sampleAccount [' ', 'm', '1'] (fun _ => .ok sampleDetail)
      (fun _ => .ok sampleDetail) sampleDetail).2.2 (by decide) rfl,
   (C8_read_message sampleAccount [' ', 'm', '1'] (fun _ => .ok sampleDetail)
      (fun _ => .ok sampleDetail) sampleDetail).1⟩

/-- C9: `_create_mailbox` runs `_generate_mailbox` before any teardown,
so when generation fails the whole module state — mailbox, known-id
set, chat state and poll task — is left exactly as it was. -/
theorem C9_create_atomic_on_generation_failure (s : MState) (e : GenError)
    (chatOk : Bool) (primed : List String) :
    createMailbox s (.error e) chatOk primed = s := rfl

/-- C10: `_choose_domain` picks exactly one entry of the domain list and
fails with `invalid domain received` whenever that chosen entry carries
no non-empty domain string, even though another entry of the list does. -/
theorem C10_failure_decided_by_chosen_entry (items : List DomainItem)
    (i j : Fin items.length) (v : String)
    (hbad : extractDomain (items.get i) = none)
    (_hgood : extractDomain (items.get j) = some v) :
    chooseDomain items i = .error "invalid domain received" := by
  unfold chooseDomain
  rw [hbad]

/-- Witness for C10: a two-entry list whose second entry is a perfectly
valid domain, where picking the first (an object without a usable
`domain` field) still fails. -/
theorem C10_failure_decided_by_chosen_entry_witness :
    chooseDomain [.dict .absent, .dict (.str "mail.tm")] ⟨0, by decide⟩
      = .error "invalid domain received" :=
  C10_failure_decided_by_chosen_entry
    [.dict .absent, .dict (.str "mail.tm")] ⟨0, by decide⟩ ⟨1, by decide⟩
    "mail.tm" rfl rfl

/-- C3: a provider call made with a cached token that is answered 401
clears the cached token, obtains a fresh one, and retries exactly once
with it: precisely two requests are issued, the outcome is that of the
retried request, the fresh token is the one cached afterwards — and
when the retry is answered 401 again, that second auth error propagates
with no third attempt. -/
theorem C3_single_auth_retry {α : Type} (t t2 : String)
    (obtain : Nat → Except HttpError String)
    (request : Nat → String → Except HttpError α)
    (h1 : request 0 t = .error (.status 401))
    (h2 : obtain 0 = .ok t2) :
    (requestWithAuthRetry (some t) obtain request).requests = [t, t2] ∧
    (requestWithAuthRetry (some t) obtain request).result = request 1 t2 ∧
    (requestWithAuthRetry (some t) obtain request).cachedToken = some t2 ∧
    (request 1 t2 = .error (.status 401) →
      (requestWithAuthRetry (some t) obtain request).result
        = .error (.status 401)) := by
  cases hr : request 1 t2 with
  | ok d =>
    refine ⟨?_, ?_, ?_, ?_⟩ <;>
      simp [requestWithAuthRetry, retryCore, h1, h2, hr]
  | error e =>
    refine ⟨?_, ?_, ?_, ?_⟩ <;>
      simp [requestWithAuthRetry, retryCore, h1, h2, hr]

/-- Witness for C3: a provider that answers 401 to both attempts; the
trace shows two requests, the second with the re-obtained token, and
the propagated 401. -/
theorem C3_single_auth_retry_witness :
    (requestWithAuthRetry (α := Detail) (some "tokA")
        (fun _ => .ok "tokB")
        (fun _ _ => .error (.status 401))).requests = ["tokA", "tokB"] ∧
    (requestWithAuthRetry (α := Detail) (some "tokA")
        (fun _ => .ok "tokB")
        (fun _ _ => .error (.status 401))).result
      = (fun (_ : Nat) (_ : String) =>
          (.error (.status 401) : Except HttpError Detail)) 1 "tokB" ∧
    (requestWithAuthRetry (α := Detail) (some "tokA")
        (fun _ => .ok "tokB")
        (fun _ _ => .error (.status 401))).cachedToken = some "tokB" ∧
    ((fun (_ : Nat) (_ : String) =>
        (.error (.status 401) : Except HttpError Detail)) 1 "tokB"
          = .error (.status 401) →
      (requestWithAuthRetry (α := Detail) (some "tokA")
          (fun _ => .ok "tokB")
          (fun _ _ => .error (.status 401))).result = .error (.status 401)) :=
  C3_single_auth_retry "tokA" "tokB" (fun _ => .ok "tokB")
    (fun _ _ => .error (.status 401)) rfl rfl

/-- C4: when the provider answers every account-creation attempt with a
conflict (HTTP 422), `_generate_mailbox` makes exactly five attempts,
each with an address built from a fresh draw of the random stream (the
login of attempt `i` is draw `2*i`, its password draw `2*i+1`), and
then fails with the exhaustion error instead of retrying further. -/
theorem C4_exhausted_after_five_conflicts (domain : String)
    (rnd : Nat → String) (create : String → String → CreateOutcome)
    (obtainTok : String → String → Except HttpError String)
    (hc : ∀ a p, create a p = .conflict) :
    generateMailbox domain rnd create obtainTok =
      (.error .exhausted,
        [mkAddress (rnd 0) domain, mkAddress (rnd 2) domain,
         mkAddress (rnd 4) domain, mkAddress (rnd 6) domain,
         mkAddress (rnd 8) domain]) ∧
    (generateMailbox domain rnd create obtainTok).2.length = 5 := by
  constructor
  · simp [generateMailbox, genAttempts, hc]
  · simp [generateMailbox, genAttempts, hc]

/-- Witness for C4: a concrete always-conflicting provider. -/
theorem C4_exhausted_after_five_conflicts_witness :
    generateMailbox "mail.tm" (fun n => toString n)
        (fun _ _ => .conflict) (fun _ _ => .ok "tok") =
      (.error .exhausted,
        ["0@mail.tm", "2@mail.tm", "4@mail.tm", "6@mail.tm", "8@mail.tm"]) ∧
    (generateMailbox "mail.tm" (fun n => toString n)
        (fun _ _ => .conflict) (fun _ _ => .ok "tok")).2.length = 5 :=
  C4_exhausted_after_five_conflicts "mail.tm" (fun n => toString n)
    (fun _ _ => .conflict) (fun _ _ => .ok "tok") (fun _ _ => rfl)

/-! ### Helper lemmas about one poll pass -/

/-- The known-id set only grows across one loop-body step. -/
theorem pollOnceStep_known_mono (f : String → Except String Detail)
    (g : String → Bool) (acc : PollResult) (m : Summary) :
    acc.known ⊆ (pollOnceStep f g acc m).known := by
  cases hid : m.id with
  | str s =>
    by_cases h1 : s = ""
    · simp [pollOnceStep, hid, h1]
    · by_cases h2 : s ∈ acc.known
      · simp [pollOnceStep, hid, h1, h2]
      · cases hf : f s with
        | error e => simp [pollOnceStep, hid, h1, h2, hf]
        | ok d =>
          simp only [pollOnceStep, hid, h1, if_false, h2, hf]
          intro x hx
          exact List.mem_append_left _ hx
  | nonStr => simp [pollOnceStep, hid]
  | absent => simp [pollOnceStep, hid]

/-- Any delivery attempt added by one loop-body step is for an id that
was not yet known when the step ran. -/
theorem pollOnceStep_attempts_new (f : String → Except String Detail)
    (g : String → Bool) (acc : PollResult) (m : Summary) :
    ∀ p ∈ (pollOnceStep f g acc m).attempts,
      p ∈ acc.attempts ∨ p.1 ∉ acc.known := by
  cases hid : m.id with
  | str s =>
    by_cases h1 : s = ""
    · have hstep : pollOnceStep f g acc m = acc := by
        simp [pollOnceStep, hid, h1]
      rw [hstep]
      exact fun p hp => Or.inl hp
    · by_cases h2 : s ∈ acc.known
      · have hstep : pollOnceStep f g acc m = acc := by
          simp [pollOnceStep, hid, h1, h2]
        rw [hstep]
        exact fun p hp => Or.inl hp
      · cases hf : f s with
        | error e =>
          have hstep : pollOnceStep f g acc m = acc := by
            simp [pollOnceStep, hid, h1, h2, hf]
          rw [hstep]
          exact fun p hp => Or.inl hp
        | ok d =>
          have hstep : (pollOnceStep f g acc m).attempts
              = acc.attempts ++ [(s, g s)] := by
            simp [pollOnceStep, hid, h1, h2, hf]
          rw [hstep]
          intro p hp
          rcases List.mem_append.1 hp with h | h
          · exact Or.inl h
          · right
            have hps : p = (s, g s) := by simpa using h
            rw [hps]
            exact h2
  | nonStr =>
    have hstep : pollOnceStep f g acc m = acc := by simp [pollOnceStep, hid]
    rw [hstep]
    exact fun p hp => Or.inl hp
  | absent =>
    have hstep : pollOnceStep f g acc m = acc := by simp [pollOnceStep, hid]
    rw [hstep]
    exact fun p hp => Or.inl hp

/-- Over a whole pass: an id already in the known set is never the
subject of a delivery attempt. -/
theorem pollOnce_known_never_attempted (f : String → Except String Detail)
    (g : String → Bool) (s : String) :
    ∀ (msgs : List Summary) (acc : PollResult), s ∈ acc.known →
      (∀ p ∈ acc.attempts, p.1 ≠ s) →
      ∀ p ∈ (msgs.foldl (pollOnceStep f g) acc).attempts, p.1 ≠ s := by
  intro msgs
  induction msgs with
  | nil =>
    intro acc _ h2
    simpa using h2
  | cons m rest ih =>
    intro acc h1 h2
    rw [List.foldl_cons]
    apply ih
    · exact pollOnceStep_known_mono f g acc m h1
    · intro p hp
      rcases pollOnceStep_attempts_new f g acc m p hp with h | h
      · exact h2 p h
      · intro he
        exact h (he ▸ h1)

/-- C5: when sink delivery fails for a fresh message, the failure is
swallowed — the pass completes and records exactly the one failed
attempt — and the id is still added to the known set, so no later pass
of the same mailbox ever attempts delivery of that id again. -/
theorem C5_delivery_failure_marks_seen
    (fetchMsg laterFetch : String → Except String Detail)
    (send laterSend : String → Bool) (known : List String)
    (s sender subject date : String) (d : Detail) (laterMsgs : List Summary)
    (hs : s ≠ "") (hk : s ∉ known)
    (hf : fetchMsg s = .ok d) (hsend : send s = false) :
    (pollOnce fetchMsg send known [⟨.str s, sender, subject, date⟩]).known
        = known ++ [s] ∧
    (pollOnce fetchMsg send known [⟨.str s, sender, subject, date⟩]).attempts
        = [(s, false)] ∧
    s ∉ (pollOnce laterFetch laterSend (known ++ [s]) laterMsgs).attempts.map
          Prod.fst := by
  refine ⟨?_, ?_, ?_⟩
  · simp [pollOnce, pollOnceStep, hs, hk, hf]
  · simp [pollOnce, pollOnceStep, hs, hk, hf, hsend]
  · intro hmem
    rcases List.mem_map.1 hmem with ⟨p, hp, hps⟩
    exact pollOnce_known_never_attempted laterFetch laterSend s laterMsgs
      ⟨known ++ [s], []⟩ (by simp) (by simp) p hp hps

/-- Witness for C5, following the spec scenario: ids `a`, `b` are
known, delivery of `c` fails, yet `c` is marked seen and a later pass
over the same three summaries attempts nothing for `c`. -/
theorem C5_delivery_failure_marks_seen_witness :
    (pollOnce (fun _ => .ok sampleDetail) (fun _ => false) ["a", "b"]
        [⟨.str "c", "s", "subj", "2024"⟩]).known = ["a", "b"] ++ ["c"] ∧
    (pollOnce (fun _ => .ok sampleDetail) (fun _ => false) ["a", "b"]
        [⟨.str "c", "s", "subj", "2024"⟩]).attempts = [("c", false)] ∧
    "c" ∉ (pollOnce (fun _ => .ok sampleDetail) (fun _ => true)
        (["a", "b"] ++ ["c"])
        [⟨.str "a", "s", "subj", "2024"⟩, ⟨.str "b", "s", "subj", "2024"⟩,
         ⟨.str "c", "s", "subj", "2024"⟩]).attempts.map Prod.fst :=
  C5_delivery_failure_marks_seen (fun _ => .ok sampleDetail)
    (fun _ => .ok sampleDetail) (fun _ => false) (fun _ => true) ["a", "b"]
    "c" "s" "subj" "2024" sampleDetail
    [⟨.str "a", "s", "subj", "2024"⟩, ⟨.str "b", "s", "subj", "2024"⟩,
     ⟨.str "c", "s", "subj", "2024"⟩]
    (by decide) (by decide) rfl rfl

/-- C7 counterexample: the claim fails on the code.  `cexBody` is 2001
characters with no surrounding whitespace, yet its truncation is NOT
its first 2000 characters followed by the marker (and is not 2001
characters long): line 580 right-strips the first 2000 characters
before appending the ellipsis, dropping the trailing space.  Moreover
`cexBody2` is exactly 2000 characters and IS altered, because line 577
strips its trailing space before the length test. -/
theorem C7_truncation_counterexample :
    (2000 < cexBody.length ∧ pyStrip cexBody = cexBody ∧
      truncateBody cexBody ≠ cexBody.take 2000 ++ [ellipsisChar] ∧
      (truncateBody cexBody).length ≠ 2001) ∧
    (cexBody2.length = 2000 ∧ truncateBody cexBody2 ≠ cexBody2) := by
  have hlen : (truncateBody cexBody).length = 2000 := by
    rw [truncate_cexBody, List.length_append, List.length_replicate]
    decide
  have hlen2 : (cexBody.take 2000 ++ [ellipsisChar]).length = 2001 := by
    rw [List.length_append, List.length_take, cexBody_length]
    decide
  refine ⟨⟨?_, pyStrip_cexBody, ?_, ?_⟩, ?_, ?_⟩
  · rw [cexBody_length]
    norm_num
  · intro h
    rw [h, hlen2] at hlen
    exact absurd hlen (by decide)
  · rw [hlen]
    decide
  · unfold cexBody2
    rw [List.length_append, List.length_replicate]
    decide
  · intro h
    have := congrArg List.length h
    rw [truncate_cexBody2, List.length_replicate] at this
    rw [show cexBody2.length = 2000 from ?_] at this
    · exact absurd this (by decide)
    · unfold cexBody2
      rw [List.length_append, List.length_replicate]
      decide

/-- C7 (amended): for every body, writing `t` for the stripped body:
if `t` is longer than 2000 characters the notification body is the
first 2000 characters of `t` with trailing whitespace removed followed
by the ellipsis marker — hence at most 2000 characters plus the marker,
not exactly 2000 — and if `t` is exactly 2000 characters long it is
left unaltered. -/
theorem C7_truncation_amended (body : List Char) :
    (2000 < (pyStrip body).length →
      truncateBody body = rstrip ((pyStrip body).take 2000) ++ [ellipsisChar] ∧
      (truncateBody body).length ≤ 2001) ∧
    ((pyStrip body).length = 2000 → truncateBody body = pyStrip body) := by
  constructor
  · intro h
    have heq : truncateBody body
        = rstrip ((pyStrip body).take 2000) ++ [ellipsisChar] := by
      unfold truncateBody
      rw [if_pos h]
    refine ⟨heq, ?_⟩
    have h1 := rstrip_length_le ((pyStrip body).take 2000)
    have h2 : ((pyStrip body).take 2000).length ≤ 2000 := by
      rw [List.length_take]
      exact min_le_left _ _
    rw [heq, List.length_append]
    simp only [List.length_cons, List.length_nil]
    omega
  · intro h
    unfold truncateBody
    rw [if_neg (by omega)]

/-- Witness for the amended C7: `cexBody` (stripped length 2001) takes
the truncation branch with the bound, and a 2000-character body is
returned unaltered. -/
theorem C7_truncation_amended_witness :
    (truncateBody cexBody
        = rstrip ((pyStrip cexBody).take 2000) ++ [ellipsisChar] ∧
      (truncateBody cexBody).length ≤ 2001) ∧
    truncateBody (List.replicate 2000 'a')
        = pyStrip (List.replicate 2000 'a') :=
  ⟨(C7_truncation_amended cexBody).1
      (by rw [pyStrip_cexBody, cexBody_length]; norm_num),
   (C7_truncation_amended (List.replicate 2000 'a')).2
      (by rw [pyStrip_replicate_a, List.length_replicate])⟩

/-! ### The one-live-loop invariant -/

theorem stopPolling_of_none (s : MState) (hp : s.pollTask = none) :
    stopPolling s = s := by
  simp [stopPolling, hp]

theorem stopPolling_of_some (s : MState) (t : Nat) (hp : s.pollTask = some t) :
    stopPolling s =
      { s with alive := s.alive.filter (fun a => a.tid ≠ t),
               pollTask := none } := by
  simp [stopPolling, hp]

theorem handleInv_init : HandleInv init := Or.inl ⟨rfl, rfl⟩

theorem stopPolling_clears (s : MState) (hs : HandleInv s) :
    (stopPolling s).alive = [] ∧ (stopPolling s).pollTask = none := by
  rcases hs with ⟨ha, hp⟩ | ⟨t, b, ha, hp⟩
  · rw [stopPolling_of_none s hp]
    exact ⟨ha, hp⟩
  · rw [stopPolling_of_some s t hp]
    refine ⟨?_, rfl⟩
    simp [ha]

theorem handleInv_startPolling (s : MState) (ha : s.alive = [])
    (hp : s.pollTask = none) : HandleInv (startPolling s) := by
  unfold startPolling
  by_cases hc : (s.pollTask.isSome || !s.hasMailbox || !s.hasPeer) = true
  · rw [if_pos hc]
    exact Or.inl ⟨ha, hp⟩
  · rw [if_neg hc]
    right
    refine ⟨s.nextId, false, ?_, rfl⟩
    simp [ha]

theorem handleInv_create (s : MState) (hs : HandleInv s) (acct : MailAccount)
    (chatOk : Bool) (primed : List String) :
    HandleInv (createMailbox s (.ok acct) chatOk primed) := by
  obtain ⟨hsa, hsp⟩ := stopPolling_clears s hs
  cases chatOk with
  | false =>
    left
    exact ⟨hsa, hsp⟩
  | true =>
    exact handleInv_startPolling { stopPolling s with hasMailbox := true, hasPeer := true, gen := (stopPolling s).gen + 1, known := primed } hsa hsp

theorem handleInv_step (s s' : MState) (h : Step s s') (hs : HandleInv s) :
    HandleInv s' := by
  cases h with
  | create genResult chatOk primed =>
    cases genResult with
    | error e => exact hs
    | ok acct => exact handleInv_create s hs acct chatOk primed
  | iterOk a writes ha hb hm hp => exact hs
  | iterErr a ha hb hm hp =>
    rcases hs with ⟨hea, hep⟩ | ⟨t, b, hea, hep⟩
    · rw [hea] at ha
      exact absurd ha (List.not_mem_nil a)
    · right
      rw [hea] at ha
      have hat : a = ⟨t, s.gen, b⟩ := List.mem_singleton.1 ha
      refine ⟨t, true, ?_, hep⟩
      show markBackoff a.tid s.alive = _
      rw [hat, hea]
      simp [markBackoff]
  | errRestart a ha hb hm hp =>
    rcases hs with ⟨hea, hep⟩ | ⟨t, b, hea, hep⟩
    · rw [hea] at ha
      exact absurd ha (List.not_mem_nil a)
    · right
      rw [hea] at ha
      have hat : a = ⟨t, s.gen, b⟩ := List.mem_singleton.1 ha
      refine ⟨s.nextId, false, ?_, rfl⟩
      rw [hat, hea]
      simp
  | errDie a ha hb hnp =>
    rcases hs with ⟨hea, hep⟩ | ⟨t, b, hea, hep⟩
    · rw [hea] at ha
      exact absurd ha (List.not_mem_nil a)
    · left
      rw [hea] at ha
      have hat : a = ⟨t, s.gen, b⟩ := List.mem_singleton.1 ha
      constructor
      · rw [hat, hea]
        simp
      · rw [hat, hep]
        simp
  | exitLoop a ha hb hnp =>
    rcases hs with ⟨hea, hep⟩ | ⟨t, b, hea, hep⟩
    · rw [hea] at ha
      exact absurd ha (List.not_mem_nil a)
    · left
      rw [hea] at ha
      have hat : a = ⟨t, s.gen, b⟩ := List.mem_singleton.1 ha
      constructor
      · rw [hat, hea]
        simp
      · rw [hat, hep]
        simp

theorem reachable_handleInv (s : MState) (h : Reachable s) : HandleInv s := by
  induction h with
  | refl => exact handleInv_init
  | tail hsteps hstep ih => exact handleInv_step _ _ hstep ih

/-- C1: in every state reachable by creating mailboxes and running the
polling machinery, at most one polling-loop task is alive, it is the
registered one, and it belongs to the current mailbox generation — so
no stale loop can write into the current mailbox's dedup set or sink:
`_stop_polling` cancels and awaits the previous task before
`_create_mailbox` resets the mailbox, dedup set and chat state. -/
theorem C1_at_most_one_live_poll_task (s : MState) (h : Reachable s) :
    s.alive.length ≤ 1 ∧
    (∀ a ∈ s.alive, a.gen = s.gen ∧ s.pollTask = some a.tid) := by
  rcases reachable_handleInv s h with ⟨ha, _⟩ | ⟨t, b, ha, hp⟩
  · rw [ha]
    exact ⟨by simp, by simp⟩
  · rw [ha]
    refine ⟨by simp, ?_⟩
    intro a hmem
    have hat : a = ⟨t, s.gen, b⟩ := List.mem_singleton.1 hmem
    rw [hat, hp]
    exact ⟨rfl, rfl⟩

/-- Witness for C1: the state after one successful mailbox creation
with a working chat, reached in one step from the fresh module. -/
theorem C1_at_most_one_live_poll_task_witness :
    (createMailbox init (.ok sampleAccount) true ["a", "b"]).alive.length
      ≤ 1 :=
  (C1_at_most_one_live_poll_task
    (createMailbox init (.ok sampleAccount) true ["a", "b"])
    (Relation.ReflTransGen.single
      (Step.create init (.ok sampleAccount) true ["a", "b"]))).1

end TempMail
